import Mathlib

/-!
Verification of the protocol/router layer of `mcp-system-monitor`.

The development shallowly embeds the JSON-RPC router (`src/server.rs`), the
protocol types (`src/types/protocol.rs`), the monitor state machine
(`src/system_monitor/core.rs`) and the two transport adapters
(`src/stdio_server.rs`, `src/http_server.rs`).

Modelling conventions:
* JSON numbers are modelled as integers (`Int`); every number appearing on
  the protocol paths under study (ids, pids, error codes) is integral.
* Timestamps (`chrono::DateTime<Utc>`) are opaque; they are modelled as a
  `Nat` clock value passed in by the caller (`Utc::now()`).
* The Linux collectors (`src/system_monitor/linux.rs`) shell out to the OS;
  they are modelled as an oracle record of `Except`-valued results, one per
  collector, with the snapshot types already in serialized (`Json`) form
  (`serde_json::to_value` on the snapshot structs is injective and total).
-/

namespace MCPSystemMonitor

/-- JSON values, as in `serde_json::Value` with numbers restricted to
integers (see the modelling conventions above). -/
inductive Json where
  | null : Json
  | bool : Bool → Json
  | int : Int → Json
  | str : String → Json
  | arr : List Json → Json
  | obj : List (String × Json) → Json
deriving Repr

/-- Object field lookup, as `serde_json::Value::get` on an object. -/
def Json.get? : Json → String → Option Json
  | .obj kvs, k => kvs.lookup k
  | _, _ => none

/-- `serde_json::Value::as_str`. -/
def Json.asStr : Json → Option String
  | .str s => some s
  | _ => none

/-- `serde_json::Value::as_u64`: the number must be a non-negative integer
representable in 64 bits. -/
def Json.as_u64 : Json → Option Nat
  | .int n => if 0 ≤ n ∧ n < 2 ^ 64 then some n.toNat else none
  | _ => none

/-- Opening brace character, as a string. -/
def obrace : String := "\x7b"

/-- Closing brace character, as a string. -/
def cbrace : String := "\x7d"

/-- Lower-case hexadecimal digit, as used by `serde_json`'s escape table. -/
def hexDigitChar (n : Nat) : Char :=
  if n < 10 then Char.ofNat (48 + n) else Char.ofNat (87 + n)

/-- Escape one character of a JSON string, mirroring `serde_json`'s
`CharEscape` table: quote, backslash, the named control escapes, and
`\u00XX` for the remaining control characters. -/
def escapeJsonChar (c : Char) : String :=
  if c = Char.ofNat 34 then "\\\""
  else if c = Char.ofNat 92 then "\\\\"
  else if c = Char.ofNat 8 then "\\b"
  else if c = Char.ofNat 9 then "\\t"
  else if c = Char.ofNat 10 then "\\n"
  else if c = Char.ofNat 12 then "\\f"
  else if c = Char.ofNat 13 then "\\r"
  else if c.toNat < 32 then
    "\\u00" ++ String.singleton (hexDigitChar (c.toNat / 16))
            ++ String.singleton (hexDigitChar (c.toNat % 16))
  else String.singleton c

/-- Escape the body of a JSON string. -/
def escapeJsonString (s : String) : String :=
  s.data.foldl (fun acc c => acc ++ escapeJsonChar c) ""

/-- A JSON string literal: quoted and escaped. -/
def quoteJson (s : String) : String :=
  "\"" ++ escapeJsonString s ++ "\""

mutual

/-- Compact rendering of a JSON value, as `serde_json::to_string`. -/
def Json.render : Json → String
  | .null => "null"
  | .bool true => "true"
  | .bool false => "false"
  | .int n => toString n
  | .str s => quoteJson s
  | .arr xs => "[" ++ String.intercalate "," (Json.renderList xs) ++ "]"
  | .obj kvs => obrace ++ String.intercalate "," (Json.renderObjList kvs) ++ cbrace

/-- Compact rendering of the elements of a JSON array. -/
def Json.renderList : List Json → List String
  | [] => []
  | x :: xs => Json.render x :: Json.renderList xs

/-- Compact rendering of the members of a JSON object. -/
def Json.renderObjList : List (String × Json) → List String
  | [] => []
  | (k, v) :: kvs => (quoteJson k ++ ":" ++ Json.render v) :: Json.renderObjList kvs

end

/-- `d` spaces, for pretty-printing indentation. -/
def indentSpaces (d : Nat) : String :=
  String.mk (List.replicate d ' ')

mutual

/-- Pretty rendering of a JSON value at indentation depth `d`, as
`serde_json::to_string_pretty` (two-space indent, `": "` member separator,
empty arrays and objects kept on one line). -/
def Json.renderPretty (d : Nat) : Json → String
  | .null => "null"
  | .bool true => "true"
  | .bool false => "false"
  | .int n => toString n
  | .str s => quoteJson s
  | .arr [] => "[]"
  | .arr (x :: xs) =>
      "[\n" ++ String.intercalate ",\n" (Json.renderPrettyList (d + 2) (x :: xs))
            ++ "\n" ++ indentSpaces d ++ "]"
  | .obj [] => obrace ++ cbrace
  | .obj (kv :: kvs) =>
      obrace ++ "\n" ++ String.intercalate ",\n" (Json.renderPrettyObjList (d + 2) (kv :: kvs))
             ++ "\n" ++ indentSpaces d ++ cbrace

/-- Pretty rendering of array elements at depth `d`. -/
def Json.renderPrettyList (d : Nat) : List Json → List String
  | [] => []
  | x :: xs => (indentSpaces d ++ Json.renderPretty d x) :: Json.renderPrettyList d xs

/-- Pretty rendering of object members at depth `d`. -/
def Json.renderPrettyObjList (d : Nat) : List (String × Json) → List String
  | [] => []
  | (k, v) :: kvs =>
      (indentSpaces d ++ quoteJson k ++ ": " ++ Json.renderPretty d v)
        :: Json.renderPrettyObjList d kvs

end

/-- `serde_json::to_string_pretty`, at top level. -/
def to_string_pretty (v : Json) : String :=
  Json.renderPretty 0 v

/-- `MCPError` from `src/types/protocol.rs`. -/
structure MCPError where
  code : Int
  message : String
  data : Option Json
deriving Repr

/-- `MCPRequest` from `src/types/protocol.rs`. The `id` field is the
normalized identifier produced by `deserialize_id_opt`. -/
structure MCPRequest where
  jsonrpc : String
  id : Option String
  method : String
  params : Json
deriving Repr

/-- `MCPResponse` from `src/types/protocol.rs`. -/
structure MCPResponse where
  jsonrpc : String
  id : Option String
  result : Option Json
  error : Option MCPError
deriving Repr

/-- `deserialize_id_opt` from `src/types/protocol.rs`, applied to a present
`id` field value: a JSON `null` becomes `none` (serde's `Option`
deserializer consumes `null` before the untagged `IdValue` enum is tried),
a string stays itself, a number becomes its decimal string; any other JSON
value is a deserialization error. -/
def deserialize_id_opt (v : Json) : Except String (Option String) :=
  match v with
  | .null => .ok none
  | .str s => .ok (some s)
  | .int n => .ok (some (toString n))
  | _ => .error "data did not match any variant of untagged enum IdValue"

/-- The derived `serde` deserializer for `MCPRequest`, applied to a parsed
JSON document: `jsonrpc` and `method` are required strings, `id` is
optional and goes through `deserialize_id_opt`, `params` defaults to
`null` when absent, unknown fields are ignored. -/
def parseRequest (raw : Json) : Except String MCPRequest :=
  match raw with
  | .obj kvs =>
    match kvs.lookup "jsonrpc" with
    | some (.str jr) =>
      match kvs.lookup "method" with
      | some (.str m) =>
        match (match kvs.lookup "id" with
               | none => Except.ok none
               | some v => deserialize_id_opt v) with
        | .ok i => .ok ⟨jr, i, m, (kvs.lookup "params").getD .null⟩
        | .error e => .error e
      | _ => .error "missing field method"
    | _ => .error "missing field jsonrpc"
  | _ => .error "invalid type: expected struct MCPRequest"

/-- The derived `serde` serializer for `MCPError`: all three fields are
always serialized, a `None` data as JSON `null`. -/
def MCPError.toJson (e : MCPError) : Json :=
  .obj [("code", .int e.code), ("message", .str e.message),
        ("data", e.data.getD .null)]

/-- The derived `serde` serializer for `MCPResponse`: the `id`, `result`
and `error` fields carry `skip_serializing_if = Option::is_none`; a
present `id` is serialized as a plain string (the response type attaches
no custom id serializer). -/
def MCPResponse.toJson (r : MCPResponse) : Json :=
  .obj ([("jsonrpc", Json.str r.jsonrpc)]
    ++ (match r.id with | some s => [("id", Json.str s)] | none => [])
    ++ (match r.result with | some v => [("result", v)] | none => [])
    ++ (match r.error with | some e => [("error", e.toJson)] | none => []))

example : Json.render (.obj [("a", .int 1), ("b", .arr [.str "x"])])
    = "\x7b\"a\":1,\"b\":[\"x\"]\x7d" := rfl

example : to_string_pretty (.obj [("a", .int 1)])
    = "\x7b\n  \"a\": 1\n\x7d" := rfl

/-! Method-name and error-code constants from `src/types/constants.rs`. -/

/-- Method name for `getSystemInfo`. -/
def METHOD_GET_SYSTEM_INFO : String := "getSystemInfo"

/-- Method name for `getCPUInfo`. -/
def METHOD_GET_CPU_INFO : String := "getCPUInfo"

/-- Method name for `getMemoryInfo`. -/
def METHOD_GET_MEMORY_INFO : String := "getMemoryInfo"

/-- Method name for `getDiskInfo`. -/
def METHOD_GET_DISK_INFO : String := "getDiskInfo"

/-- Method name for `getNetworkInfo`. -/
def METHOD_GET_NETWORK_INFO : String := "getNetworkInfo"

/-- Method name for `getProcesses`. -/
def METHOD_GET_PROCESSES : String := "getProcesses"

/-- Method name for `getProcessByPID`. -/
def METHOD_GET_PROCESS_BY_PID : String := "getProcessByPID"

/-- Method name for `getSystemMetrics`. -/
def METHOD_GET_SYSTEM_METRICS : String := "getSystemMetrics"

/-- Method name for `startMonitoring`. -/
def METHOD_START_MONITORING : String := "startMonitoring"

/-- Method name for `stopMonitoring`. -/
def METHOD_STOP_MONITORING : String := "stopMonitoring"

/-- JSON-RPC invalid request error code. -/
def ERROR_INVALID_REQUEST : Int := -32600

/-- JSON-RPC method-not-found error code. -/
def ERROR_METHOD_NOT_FOUND : Int := -32601

/-- JSON-RPC invalid params error code. -/
def ERROR_INVALID_PARAMS : Int := -32602

/-- JSON-RPC internal error code. -/
def ERROR_INTERNAL_ERROR : Int := -32603

/-- JSON-RPC parse error code. -/
def ERROR_PARSE_ERROR : Int := -32700

/-- Domain-specific process-not-found error code. -/
def ERROR_PROCESS_NOT_FOUND : Int := -32001

/-! The monitor capability, `src/system_monitor/core.rs`. -/

/-- The Linux collector backend (`LinuxSystemInfo` from
`src/system_monitor/linux.rs`), modelled as an oracle of collector
outcomes: each field is the result the collector would produce, with the
snapshot already in serialized `Json` form. -/
structure LinuxSystemInfo where
  get_system_info : Except String Json
  get_cpu_info : Except String Json
  get_memory_info : Except String Json
  get_disk_info : Except String Json
  get_network_info : Except String Json
  get_processes : Except String Json
  get_process_by_pid : Nat → Except String (Option Json)

/-- `SystemMetrics` from `src/types/system.rs`, with the six component
snapshots in serialized `Json` form and the timestamp as a `Nat`. -/
structure SystemMetrics where
  timestamp : Nat
  system_info : Json
  cpu_info : Json
  memory_info : Json
  disks : Json
  networks : Json
  processes : Json

/-- The derived `serde` serializer for `SystemMetrics`. -/
def SystemMetrics.toJson (s : SystemMetrics) : Json :=
  .obj [("timestamp", .int s.timestamp), ("system_info", s.system_info),
        ("cpu_info", s.cpu_info), ("memory_info", s.memory_info),
        ("disks", s.disks), ("networks", s.networks),
        ("processes", s.processes)]

/-- `SystemMonitor` from `src/system_monitor/core.rs`. -/
structure SystemMonitor where
  monitoring_active : Bool
  last_update : Nat
  linux_info : LinuxSystemInfo

/-- `SystemMonitor::refresh`: updates the last-update timestamp. -/
def SystemMonitor.refresh (m : SystemMonitor) (now : Nat) : SystemMonitor :=
  { m with last_update := now }

/-- `SystemMonitor::get_system_info`. -/
def SystemMonitor.get_system_info (m : SystemMonitor) (now : Nat) :
    SystemMonitor × Except String Json :=
  (m.refresh now, m.linux_info.get_system_info)

/-- `SystemMonitor::get_cpu_info`. -/
def SystemMonitor.get_cpu_info (m : SystemMonitor) (now : Nat) :
    SystemMonitor × Except String Json :=
  (m.refresh now, m.linux_info.get_cpu_info)

/-- `SystemMonitor::get_memory_info`. -/
def SystemMonitor.get_memory_info (m : SystemMonitor) (now : Nat) :
    SystemMonitor × Except String Json :=
  (m.refresh now, m.linux_info.get_memory_info)

/-- `SystemMonitor::get_disk_info`. -/
def SystemMonitor.get_disk_info (m : SystemMonitor) (now : Nat) :
    SystemMonitor × Except String Json :=
  (m.refresh now, m.linux_info.get_disk_info)

/-- `SystemMonitor::get_network_info`. -/
def SystemMonitor.get_network_info (m : SystemMonitor) (now : Nat) :
    SystemMonitor × Except String Json :=
  (m.refresh now, m.linux_info.get_network_info)

/-- `SystemMonitor::get_processes`. -/
def SystemMonitor.get_processes (m : SystemMonitor) (now : Nat) :
    SystemMonitor × Except String Json :=
  (m.refresh now, m.linux_info.get_processes)

/-- `SystemMonitor::get_process_by_pid`. -/
def SystemMonitor.get_process_by_pid (m : SystemMonitor) (now : Nat) (pid : Nat) :
    SystemMonitor × Except String (Option Json) :=
  (m.refresh now, m.linux_info.get_process_by_pid pid)

/-- `SystemMonitor::get_system_metrics`: refreshes, then sequences the six
collector calls with the `?` operator; the first failure aborts the whole
call, and on success the aggregate bundles all six snapshots with a fresh
timestamp. Each nested accessor refreshes again; the clock value `now` is
shared since times are opaque in this model. -/
def SystemMonitor.get_system_metrics (m : SystemMonitor) (now : Nat) :
    SystemMonitor × Except String SystemMetrics :=
  let m := m.refresh now
  let (m, r1) := m.get_system_info now
  match r1 with
  | .error e => (m, .error e)
  | .ok system_info =>
    let (m, r2) := m.get_cpu_info now
    match r2 with
    | .error e => (m, .error e)
    | .ok cpu_info =>
      let (m, r3) := m.get_memory_info now
      match r3 with
      | .error e => (m, .error e)
      | .ok memory_info =>
        let (m, r4) := m.get_disk_info now
        match r4 with
        | .error e => (m, .error e)
        | .ok disks =>
          let (m, r5) := m.get_network_info now
          match r5 with
          | .error e => (m, .error e)
          | .ok networks =>
            let (m, r6) := m.get_processes now
            match r6 with
            | .error e => (m, .error e)
            | .ok processes =>
              (m, .ok ⟨now, system_info, cpu_info, memory_info,
                       disks, networks, processes⟩)

/-- `SystemMonitor::start_monitoring`: sets the flag, reporting whether a
transition occurred (the `Result` wrapper is omitted since every path of
the source returns `Ok`). -/
def SystemMonitor.start_monitoring (m : SystemMonitor) : SystemMonitor × Bool :=
  if m.monitoring_active then (m, false)
  else ({ m with monitoring_active := true }, true)

/-- `SystemMonitor::stop_monitoring`: clears the flag, reporting whether a
transition occurred. -/
def SystemMonitor.stop_monitoring (m : SystemMonitor) : SystemMonitor × Bool :=
  if m.monitoring_active then ({ m with monitoring_active := false }, true)
  else (m, false)

/-- `SystemMonitor::is_monitoring_active`. -/
def SystemMonitor.is_monitoring_active (m : SystemMonitor) : Bool :=
  m.monitoring_active

/-! The JSON-RPC router, `src/server.rs`. The `Arc<RwLock<SystemMonitor>>`
cell is modelled by threading the `SystemMonitor` state through each
handler (the lock serializes every monitor access). -/

namespace MCPServer

/-- `MCPServer::create_success_response`. -/
def create_success_response (id : Option String) (result : Json) : MCPResponse :=
  ⟨"2.0", id, some result, none⟩

/-- `MCPServer::create_error_response`. -/
def create_error_response (id : Option String) (code : Int) (message : String) :
    MCPResponse :=
  ⟨"2.0", id, none, some ⟨code, message, none⟩⟩

/-- `MCPServer::handle_initialize`: echoes the client's requested protocol
version (default `"2025-11-25"`) with fixed capability and server-identity
metadata. -/
def handle_initialize (m : SystemMonitor) (id : Option String) (params : Json) :
    SystemMonitor × MCPResponse :=
  let requested_version := ((params.get? "protocolVersion").bind Json.asStr).getD "2025-11-25"
  (m, create_success_response id (.obj [
      ("protocolVersion", .str requested_version),
      ("capabilities", .obj [("tools", .obj [])]),
      ("serverInfo", .obj [("name", .str "mcp-system-monitor"),
                           ("version", .str "0.1.0")])]))

/-- The static catalogue returned by `MCPServer::handle_tools_list`. -/
def toolsListResult : Json :=
  .obj [("tools", .arr [
    .obj [("name", .str "get_system_info"),
          ("description", .str "Get system information (hostname, OS, kernel version, uptime)"),
          ("inputSchema", .obj [("type", .str "object"), ("properties", .obj [])])],
    .obj [("name", .str "get_cpu_info"),
          ("description", .str "Get CPU information and usage statistics"),
          ("inputSchema", .obj [("type", .str "object"), ("properties", .obj [])])],
    .obj [("name", .str "get_memory_info"),
          ("description", .str "Get memory and swap usage information"),
          ("inputSchema", .obj [("type", .str "object"), ("properties", .obj [])])],
    .obj [("name", .str "get_disk_info"),
          ("description", .str "Get disk usage information for all mounted filesystems"),
          ("inputSchema", .obj [("type", .str "object"), ("properties", .obj [])])],
    .obj [("name", .str "get_network_info"),
          ("description", .str "Get network interface information and statistics"),
          ("inputSchema", .obj [("type", .str "object"), ("properties", .obj [])])],
    .obj [("name", .str "get_processes"),
          ("description", .str "Get list of all running processes"),
          ("inputSchema", .obj [("type", .str "object"), ("properties", .obj [])])],
    .obj [("name", .str "get_system_metrics"),
          ("description", .str "Get comprehensive system metrics"),
          ("inputSchema", .obj [("type", .str "object"), ("properties", .obj [])])]])]

/-- `MCPServer::handle_tools_list`. -/
def handle_tools_list (m : SystemMonitor) (id : Option String) :
    SystemMonitor × MCPResponse :=
  (m, create_success_response id toolsListResult)

/-- `MCPServer::handle_get_system_info`. -/
def handle_get_system_info (m : SystemMonitor) (now : Nat) (id : Option String) :
    SystemMonitor × MCPResponse :=
  let (m, r) := m.get_system_info now
  match r with
  | .ok info => (m, create_success_response id info)
  | .error e => (m, create_error_response id ERROR_INTERNAL_ERROR
      ("Failed to get system info: " ++ e))

/-- `MCPServer::handle_get_cpu_info`. -/
def handle_get_cpu_info (m : SystemMonitor) (now : Nat) (id : Option String) :
    SystemMonitor × MCPResponse :=
  let (m, r) := m.get_cpu_info now
  match r with
  | .ok info => (m, create_success_response id info)
  | .error e => (m, create_error_response id ERROR_INTERNAL_ERROR
      ("Failed to get CPU info: " ++ e))

/-- `MCPServer::handle_get_memory_info`. -/
def handle_get_memory_info (m : SystemMonitor) (now : Nat) (id : Option String) :
    SystemMonitor × MCPResponse :=
  let (m, r) := m.get_memory_info now
  match r with
  | .ok info => (m, create_success_response id info)
  | .error e => (m, create_error_response id ERROR_INTERNAL_ERROR
      ("Failed to get memory info: " ++ e))

/-- `MCPServer::handle_get_disk_info`. -/
def handle_get_disk_info (m : SystemMonitor) (now : Nat) (id : Option String) :
    SystemMonitor × MCPResponse :=
  let (m, r) := m.get_disk_info now
  match r with
  | .ok disks => (m, create_success_response id disks)
  | .error e => (m, create_error_response id ERROR_INTERNAL_ERROR
      ("Failed to get disk info: " ++ e))

/-- `MCPServer::handle_get_network_info`. -/
def handle_get_network_info (m : SystemMonitor) (now : Nat) (id : Option String) :
    SystemMonitor × MCPResponse :=
  let (m, r) := m.get_network_info now
  match r with
  | .ok networks => (m, create_success_response id networks)
  | .error e => (m, create_error_response id ERROR_INTERNAL_ERROR
      ("Failed to get network info: " ++ e))

/-- `MCPServer::handle_get_processes`. -/
def handle_get_processes (m : SystemMonitor) (now : Nat) (id : Option String) :
    SystemMonitor × MCPResponse :=
  let (m, r) := m.get_processes now
  match r with
  | .ok processes => (m, create_success_response id processes)
  | .error e => (m, create_error_response id ERROR_INTERNAL_ERROR
      ("Failed to get processes: " ++ e))

/-- `MCPServer::handle_get_process_by_pid`: the `pid` parameter is read
with `Value::as_u64` and then truncated with `as u32` (modelled as
`% 2 ^ 32`); a missing or non-`u64` parameter is an invalid-params error,
a successful lookup with no matching process is the domain-specific
process-not-found error, and a collector failure is an internal error. -/
def handle_get_process_by_pid (m : SystemMonitor) (now : Nat) (id : Option String)
    (params : Json) : SystemMonitor × MCPResponse :=
  match params.get? "pid" with
  | some pid_value =>
    match pid_value.as_u64 with
    | some pid64 =>
      let pid := pid64 % 2 ^ 32
      let (m, r) := m.get_process_by_pid now pid
      match r with
      | .ok (some process) => (m, create_success_response id process)
      | .ok none => (m, create_error_response id ERROR_PROCESS_NOT_FOUND
          ("Process with PID " ++ toString pid ++ " not found"))
      | .error e => (m, create_error_response id ERROR_INTERNAL_ERROR
          ("Failed to get process: " ++ e))
    | none => (m, create_error_response id ERROR_INVALID_PARAMS "Invalid PID parameter")
  | none => (m, create_error_response id ERROR_INVALID_PARAMS "Missing PID parameter")

/-- `MCPServer::handle_get_system_metrics`. -/
def handle_get_system_metrics (m : SystemMonitor) (now : Nat) (id : Option String) :
    SystemMonitor × MCPResponse :=
  let (m, r) := m.get_system_metrics now
  match r with
  | .ok metrics => (m, create_success_response id metrics.toJson)
  | .error e => (m, create_error_response id ERROR_INTERNAL_ERROR
      ("Failed to get system metrics: " ++ e))

/-- `MCPServer::handle_start_monitoring` (the monitor's `start_monitoring`
never fails, so only the `Ok` arm of the source is reachable). -/
def handle_start_monitoring (m : SystemMonitor) (id : Option String) :
    SystemMonitor × MCPResponse :=
  let (m, started) := m.start_monitoring
  (m, create_success_response id (.obj [
      ("started", .bool started),
      ("message", .str (if started then "Monitoring started successfully"
                        else "Monitoring already active"))]))

/-- `MCPServer::handle_stop_monitoring`. -/
def handle_stop_monitoring (m : SystemMonitor) (id : Option String) :
    SystemMonitor × MCPResponse :=
  let (m, stopped) := m.stop_monitoring
  (m, create_success_response id (.obj [
      ("stopped", .bool stopped),
      ("message", .str (if stopped then "Monitoring stopped successfully"
                        else "Monitoring not active"))]))

/-- The tool-name dispatch of `MCPServer::handle_tools_call`: the match on
the extracted `name` string, returning the invoked handler's outcome for
the seven recognized tools and `none` for the catch-all arm. -/
def runTool (m : SystemMonitor) (now : Nat) (id : Option String) (name : String) :
    Option (SystemMonitor × MCPResponse) :=
  if name = "get_system_info" then some (handle_get_system_info m now id)
  else if name = "get_cpu_info" then some (handle_get_cpu_info m now id)
  else if name = "get_memory_info" then some (handle_get_memory_info m now id)
  else if name = "get_disk_info" then some (handle_get_disk_info m now id)
  else if name = "get_network_info" then some (handle_get_network_info m now id)
  else if name = "get_processes" then some (handle_get_processes m now id)
  else if name = "get_system_metrics" then some (handle_get_system_metrics m now id)
  else none

/-- The MCP content-block envelope wrapped around a successful tool result
by `handle_tools_call`. -/
def contentEnvelope (result : Json) : Json :=
  .obj [("content", .arr [
    .obj [("type", .str "text"), ("text", .str (to_string_pretty result))]])]

/-- `MCPServer::handle_tools_call`: extracts `params.name` as a string,
dispatches; an unmatched or missing name is a "Tool not found" error; a
successful underlying result is wrapped in the content envelope, an
underlying error response is returned unchanged. -/
def handle_tools_call (m : SystemMonitor) (now : Nat) (id : Option String)
    (params : Json) : SystemMonitor × MCPResponse :=
  let tool_name := (params.get? "name").bind Json.asStr
  match tool_name.bind (runTool m now id) with
  | none => (m, create_error_response id ERROR_METHOD_NOT_FOUND "Tool not found")
  | some (m', tool_response) =>
    match tool_response.result with
    | some result => (m', create_success_response id (contentEnvelope result))
    | none => (m', tool_response)

/-- `MCPServer::handle_request`: the exact-match, case-sensitive method
dispatch, with the unknown-method catch-all. -/
def handle_request (m : SystemMonitor) (now : Nat) (req : MCPRequest) :
    SystemMonitor × MCPResponse :=
  if req.method = "initialize" then handle_initialize m req.id req.params
  else if req.method = "initialized" then (m, create_success_response req.id (.obj []))
  else if req.method = "tools/list" then handle_tools_list m req.id
  else if req.method = "tools/call" then handle_tools_call m now req.id req.params
  else if req.method = METHOD_GET_SYSTEM_INFO then handle_get_system_info m now req.id
  else if req.method = METHOD_GET_CPU_INFO then handle_get_cpu_info m now req.id
  else if req.method = METHOD_GET_MEMORY_INFO then handle_get_memory_info m now req.id
  else if req.method = METHOD_GET_DISK_INFO then handle_get_disk_info m now req.id
  else if req.method = METHOD_GET_NETWORK_INFO then handle_get_network_info m now req.id
  else if req.method = METHOD_GET_PROCESSES then handle_get_processes m now req.id
  else if req.method = METHOD_GET_PROCESS_BY_PID then
    handle_get_process_by_pid m now req.id req.params
  else if req.method = METHOD_GET_SYSTEM_METRICS then handle_get_system_metrics m now req.id
  else if req.method = METHOD_START_MONITORING then handle_start_monitoring m req.id
  else if req.method = METHOD_STOP_MONITORING then handle_stop_monitoring m req.id
  else (m, create_error_response req.id ERROR_METHOD_NOT_FOUND "Method not found")

end MCPServer

/-! The stdio transport adapter, `src/stdio_server.rs`. The byte-level
`Content-Length` header reading is abstracted to a sequence of frame
payloads, each already parsed into a JSON document (a payload that is not
valid JSON at all is folded into the request-deserialization failure
path, which produces the same framed parse-error output). -/

namespace StdioServer

/-- The fixed parse-error body written by `StdioServer::run` when a frame
payload fails to deserialize as an `MCPRequest`. -/
def parseErrorBody : Json :=
  .obj [("jsonrpc", .str "2.0"),
        ("error", .obj [("code", .int (-32700)), ("message", .str "Parse error")])]

/-- `Content-Length` framing of one outgoing message, as written by
`StdioServer::run`: the header carries the byte length of the body. -/
def frameMessage (body : String) : String :=
  "Content-Length: " ++ toString body.utf8ByteSize ++ "\r\n\r\n" ++ body

/-- One iteration of the `StdioServer::run` loop after a complete frame
payload has been read: deserialize, dispatch, and write a framed response
(the parse-error body on deserialization failure). The write is
unconditional — the source checks nothing about the request identifier. -/
def handleFrame (m : SystemMonitor) (now : Nat) (payload : Json) :
    SystemMonitor × String :=
  match parseRequest payload with
  | .ok request =>
    ((MCPServer.handle_request m now request).1,
     frameMessage (MCPServer.handle_request m now request).2.toJson.render)
  | .error _ => (m, frameMessage parseErrorBody.render)

/-- The `StdioServer::run` loop over a finite input stream of frame
payloads (the loop exits cleanly at end of input): each frame is handled
and its framed output written before the next is read. -/
def run (m : SystemMonitor) (now : Nat) : List Json → SystemMonitor × List String
  | [] => (m, [])
  | p :: ps =>
    ((run (handleFrame m now p).1 now ps).1,
     (handleFrame m now p).2 :: (run (handleFrame m now p).1 now ps).2)

end StdioServer

/-! The HTTP transport adapter, `src/http_server.rs`. Each Axum handler
returns `Result<Json<Value>, StatusCode>`; a reply is either HTTP 200
with a JSON body or a bare error status. -/

/-- Outcome of an HTTP sugar-endpoint handler. -/
inductive HttpReply where
  | ok (body : Json)
  | status (code : Nat)
deriving Repr

namespace HTTPServer

/-- The unwrap step every sugar endpoint repeats on the router's outcome:
`match response.result { Some(result) => Ok(Json(result)), None =>
Err(status) }`, with `status` the endpoint's failure status code. -/
def unwrapResult (out : SystemMonitor × MCPResponse) (failStatus : Nat) :
    SystemMonitor × HttpReply :=
  match out.2.result with
  | some result => (out.1, .ok result)
  | none => (out.1, .status failStatus)

/-- `HTTPServer::get_system_info`, the `GET /api/system/info` sugar
endpoint: a canned `getSystemInfo` call with a fresh identifier `reqId`;
a missing result maps to HTTP 500. -/
def get_system_info (m : SystemMonitor) (now : Nat) (reqId : String) :
    SystemMonitor × HttpReply :=
  unwrapResult
    (MCPServer.handle_request m now
      ⟨"2.0", some reqId, METHOD_GET_SYSTEM_INFO, .obj []⟩) 500

/-- `HTTPServer::get_process_by_pid`, the `GET /api/system/processes/:pid`
sugar endpoint: the Axum `Path<u32>` extractor yields `pid`; a canned
`getProcessByPID` call with a fresh identifier `reqId`; a missing result
maps to HTTP 404. -/
def get_process_by_pid (m : SystemMonitor) (now : Nat) (reqId : String) (pid : Nat) :
    SystemMonitor × HttpReply :=
  unwrapResult
    (MCPServer.handle_request m now
      ⟨"2.0", some reqId, METHOD_GET_PROCESS_BY_PID, .obj [("pid", .int pid)]⟩) 404

/-- `HTTPServer::handle_mcp_request`, the raw `POST /` endpoint: a body
that fails to deserialize is an HTTP-level error string; a notification
(absent id) is answered with an empty JSON object instead of the JSON-RPC
response; otherwise the serialized response is the body. -/
def handle_mcp_request (m : SystemMonitor) (now : Nat) (raw : Json) :
    SystemMonitor × Except String Json :=
  match parseRequest raw with
  | .error e => (m, .error ("JSON parse error: " ++ e))
  | .ok request =>
    if request.id.isNone then ((MCPServer.handle_request m now request).1, .ok (.obj []))
    else ((MCPServer.handle_request m now request).1,
          .ok (MCPServer.handle_request m now request).2.toJson)

end HTTPServer

/-! Concrete fixtures used by witnesses and counterexamples. -/

/-- A collector oracle whose six snapshot collectors succeed with `null`
and whose by-pid lookup finds no process. -/
def trivialCollectors : LinuxSystemInfo :=
  ⟨.ok .null, .ok .null, .ok .null, .ok .null, .ok .null, .ok .null,
   fun _ => .ok none⟩

/-- A monitor over `trivialCollectors`, monitoring inactive. -/
def testMonitor : SystemMonitor := ⟨false, 0, trivialCollectors⟩

/-- A collector oracle with distinct successful snapshots, for exercising
the all-success path of `get_system_metrics`. -/
def fullCollectors : LinuxSystemInfo :=
  ⟨.ok (.str "si"), .ok (.str "cpu"), .ok (.str "mem"), .ok (.str "dsk"),
   .ok (.str "net"), .ok (.str "prc"), fun pid => .ok (some (.int pid))⟩

/-- A monitor over `fullCollectors`. -/
def fullMonitor : SystemMonitor := ⟨false, 0, fullCollectors⟩

/-- A collector oracle whose by-pid lookup fails with an infrastructure
error. -/
def failingPidCollectors : LinuxSystemInfo :=
  ⟨.ok .null, .ok .null, .ok .null, .ok .null, .ok .null, .ok .null,
   fun _ => .error "boom"⟩

/-- A monitor over `failingPidCollectors`. -/
def failingPidMonitor : SystemMonitor := ⟨false, 0, failingPidCollectors⟩

/-- The tool names advertised by a `tools/list` catalogue value: the
`name` string of each entry of its `tools` array. -/
def toolNamesOfCatalogue (catalogue : Json) : List String :=
  match catalogue.get? "tools" with
  | some (.arr entries) => entries.filterMap (fun t => (t.get? "name").bind Json.asStr)
  | _ => []

/-- The method strings with a dedicated dispatch arm in
`MCPServer::handle_request`; any other method falls to the catch-all. -/
def recognizedMethods : List String :=
  ["initialize", "initialized", "tools/list", "tools/call",
   METHOD_GET_SYSTEM_INFO, METHOD_GET_CPU_INFO, METHOD_GET_MEMORY_INFO,
   METHOD_GET_DISK_INFO, METHOD_GET_NETWORK_INFO, METHOD_GET_PROCESSES,
   METHOD_GET_PROCESS_BY_PID, METHOD_GET_SYSTEM_METRICS,
   METHOD_START_MONITORING, METHOD_STOP_MONITORING]

/-! Helper lemmas about the router's response discipline. -/

/-- A well-formed router response: the request identifier is echoed and
exactly one of `result` and `error` is present. -/
def goodResp (id : Option String) (r : MCPResponse) : Prop :=
  r.id = id ∧ ((r.result = none ∧ r.error ≠ none) ∨ (r.result ≠ none ∧ r.error = none))

lemma goodResp_success (id : Option String) (v : Json) :
    goodResp id (MCPServer.create_success_response id v) := by
  simp [goodResp, MCPServer.create_success_response]

lemma goodResp_error (id : Option String) (c : Int) (msg : String) :
    goodResp id (MCPServer.create_error_response id c msg) := by
  simp [goodResp, MCPServer.create_error_response]

lemma goodResp_handle_get_system_info (m : SystemMonitor) (now : Nat) (id : Option String) :
    goodResp id (MCPServer.handle_get_system_info m now id).2 := by
  unfold MCPServer.handle_get_system_info SystemMonitor.get_system_info
  cases m.linux_info.get_system_info <;>
    simp [goodResp_success, goodResp_error]

lemma goodResp_handle_get_cpu_info (m : SystemMonitor) (now : Nat) (id : Option String) :
    goodResp id (MCPServer.handle_get_cpu_info m now id).2 := by
  unfold MCPServer.handle_get_cpu_info SystemMonitor.get_cpu_info
  cases m.linux_info.get_cpu_info <;>
    simp [goodResp_success, goodResp_error]

lemma goodResp_handle_get_memory_info (m : SystemMonitor) (now : Nat) (id : Option String) :
    goodResp id (MCPServer.handle_get_memory_info m now id).2 := by
  unfold MCPServer.handle_get_memory_info SystemMonitor.get_memory_info
  cases m.linux_info.get_memory_info <;>
    simp [goodResp_success, goodResp_error]

lemma goodResp_handle_get_disk_info (m : SystemMonitor) (now : Nat) (id : Option String) :
    goodResp id (MCPServer.handle_get_disk_info m now id).2 := by
  unfold MCPServer.handle_get_disk_info SystemMonitor.get_disk_info
  cases m.linux_info.get_disk_info <;>
    simp [goodResp_success, goodResp_error]

lemma goodResp_handle_get_network_info (m : SystemMonitor) (now : Nat) (id : Option String) :
    goodResp id (MCPServer.handle_get_network_info m now id).2 := by
  unfold MCPServer.handle_get_network_info SystemMonitor.get_network_info
  cases m.linux_info.get_network_info <;>
    simp [goodResp_success, goodResp_error]

lemma goodResp_handle_get_processes (m : SystemMonitor) (now : Nat) (id : Option String) :
    goodResp id (MCPServer.handle_get_processes m now id).2 := by
  unfold MCPServer.handle_get_processes SystemMonitor.get_processes
  cases m.linux_info.get_processes <;>
    simp [goodResp_success, goodResp_error]

lemma goodResp_handle_get_process_by_pid (m : SystemMonitor) (now : Nat)
    (id : Option String) (params : Json) :
    goodResp id (MCPServer.handle_get_process_by_pid m now id params).2 := by
  unfold MCPServer.handle_get_process_by_pid SystemMonitor.get_process_by_pid
  cases hp : params.get? "pid" with
  | none =>
    simp [hp, goodResp, MCPServer.create_error_response]
  | some v =>
    cases hv : v.as_u64 with
    | none =>
      simp [hp, hv, goodResp, MCPServer.create_error_response]
    | some n =>
      cases hr : m.linux_info.get_process_by_pid (n % 4294967296) with
      | error e =>
        simp [hp, hv, hr, goodResp, MCPServer.create_error_response]
      | ok o =>
        cases o <;>
          simp [hp, hv, hr, goodResp, MCPServer.create_error_response,
                MCPServer.create_success_response]

lemma goodResp_handle_get_system_metrics (m : SystemMonitor) (now : Nat)
    (id : Option String) :
    goodResp id (MCPServer.handle_get_system_metrics m now id).2 := by
  unfold MCPServer.handle_get_system_metrics SystemMonitor.get_system_metrics
  unfold SystemMonitor.get_system_info SystemMonitor.get_cpu_info
    SystemMonitor.get_memory_info SystemMonitor.get_disk_info
    SystemMonitor.get_network_info SystemMonitor.get_processes
  cases h1 : m.linux_info.get_system_info <;>
    cases h2 : m.linux_info.get_cpu_info <;>
    cases h3 : m.linux_info.get_memory_info <;>
    cases h4 : m.linux_info.get_disk_info <;>
    cases h5 : m.linux_info.get_network_info <;>
    cases h6 : m.linux_info.get_processes <;>
    simp [h1, h2, h3, h4, h5, h6, SystemMonitor.refresh, goodResp,
          MCPServer.create_error_response, MCPServer.create_success_response]

lemma goodResp_handle_initialize (m : SystemMonitor) (id : Option String) (params : Json) :
    goodResp id (MCPServer.handle_initialize m id params).2 := by
  unfold MCPServer.handle_initialize
  simp [goodResp_success]

lemma goodResp_handle_tools_list (m : SystemMonitor) (id : Option String) :
    goodResp id (MCPServer.handle_tools_list m id).2 := by
  unfold MCPServer.handle_tools_list
  simp [goodResp_success]

lemma goodResp_handle_start_monitoring (m : SystemMonitor) (id : Option String) :
    goodResp id (MCPServer.handle_start_monitoring m id).2 := by
  unfold MCPServer.handle_start_monitoring SystemMonitor.start_monitoring
  cases m.monitoring_active <;> simp [goodResp_success]

lemma goodResp_handle_stop_monitoring (m : SystemMonitor) (id : Option String) :
    goodResp id (MCPServer.handle_stop_monitoring m id).2 := by
  unfold MCPServer.handle_stop_monitoring SystemMonitor.stop_monitoring
  cases m.monitoring_active <;> simp [goodResp_success]

lemma goodResp_runTool (m : SystemMonitor) (now : Nat) (id : Option String)
    (name : String) (m' : SystemMonitor) (tr : MCPResponse)
    (h : MCPServer.runTool m now id name = some (m', tr)) :
    goodResp id tr := by
  unfold MCPServer.runTool at h
  split_ifs at h
  all_goals first
    | cases h
    | (injection h with h2
       first
         | (have hg := goodResp_handle_get_system_info m now id; rw [h2] at hg; exact hg)
         | (have hg := goodResp_handle_get_cpu_info m now id; rw [h2] at hg; exact hg)
         | (have hg := goodResp_handle_get_memory_info m now id; rw [h2] at hg; exact hg)
         | (have hg := goodResp_handle_get_disk_info m now id; rw [h2] at hg; exact hg)
         | (have hg := goodResp_handle_get_network_info m now id; rw [h2] at hg; exact hg)
         | (have hg := goodResp_handle_get_processes m now id; rw [h2] at hg; exact hg)
         | (have hg := goodResp_handle_get_system_metrics m now id; rw [h2] at hg; exact hg))

lemma goodResp_handle_tools_call (m : SystemMonitor) (now : Nat)
    (id : Option String) (params : Json) :
    goodResp id (MCPServer.handle_tools_call m now id params).2 := by
  unfold MCPServer.handle_tools_call
  cases hb : ((params.get? "name").bind Json.asStr).bind (MCPServer.runTool m now id) with
  | none => simp [hb, goodResp, MCPServer.create_error_response]
  | some p =>
    obtain ⟨m', tr⟩ := p
    obtain ⟨name, hname, hrun⟩ := Option.bind_eq_some.mp hb
    have htr := goodResp_runTool m now id name m' tr hrun
    cases hres : tr.result with
    | some r => simp [hb, hres, goodResp, MCPServer.create_success_response]
    | none => simp only [hb, hres]; exact htr

set_option maxHeartbeats 1000000 in
lemma goodResp_handle_request (m : SystemMonitor) (now : Nat) (req : MCPRequest) :
    goodResp req.id (MCPServer.handle_request m now req).2 := by
  unfold MCPServer.handle_request
  by_cases h1 : req.method = "initialize"
  · rw [if_pos h1]; exact goodResp_handle_initialize ..
  rw [if_neg h1]
  by_cases h2 : req.method = "initialized"
  · rw [if_pos h2]; exact goodResp_success ..
  rw [if_neg h2]
  by_cases h3 : req.method = "tools/list"
  · rw [if_pos h3]; exact goodResp_handle_tools_list ..
  rw [if_neg h3]
  by_cases h4 : req.method = "tools/call"
  · rw [if_pos h4]; exact goodResp_handle_tools_call ..
  rw [if_neg h4]
  by_cases h5 : req.method = METHOD_GET_SYSTEM_INFO
  · rw [if_pos h5]; exact goodResp_handle_get_system_info ..
  rw [if_neg h5]
  by_cases h6 : req.method = METHOD_GET_CPU_INFO
  · rw [if_pos h6]; exact goodResp_handle_get_cpu_info ..
  rw [if_neg h6]
  by_cases h7 : req.method = METHOD_GET_MEMORY_INFO
  · rw [if_pos h7]; exact goodResp_handle_get_memory_info ..
  rw [if_neg h7]
  by_cases h8 : req.method = METHOD_GET_DISK_INFO
  · rw [if_pos h8]; exact goodResp_handle_get_disk_info ..
  rw [if_neg h8]
  by_cases h9 : req.method = METHOD_GET_NETWORK_INFO
  · rw [if_pos h9]; exact goodResp_handle_get_network_info ..
  rw [if_neg h9]
  by_cases h10 : req.method = METHOD_GET_PROCESSES
  · rw [if_pos h10]; exact goodResp_handle_get_processes ..
  rw [if_neg h10]
  by_cases h11 : req.method = METHOD_GET_PROCESS_BY_PID
  · rw [if_pos h11]; exact goodResp_handle_get_process_by_pid ..
  rw [if_neg h11]
  by_cases h12 : req.method = METHOD_GET_SYSTEM_METRICS
  · rw [if_pos h12]; exact goodResp_handle_get_system_metrics ..
  rw [if_neg h12]
  by_cases h13 : req.method = METHOD_START_MONITORING
  · rw [if_pos h13]; exact goodResp_handle_start_monitoring ..
  rw [if_neg h13]
  by_cases h14 : req.method = METHOD_STOP_MONITORING
  · rw [if_pos h14]; exact goodResp_handle_stop_monitoring ..
  rw [if_neg h14]
  exact goodResp_error ..

lemma handle_request_id (m : SystemMonitor) (now : Nat) (req : MCPRequest) :
    (MCPServer.handle_request m now req).2.id = req.id :=
  (goodResp_handle_request m now req).1

lemma unwrapResult_some (out : SystemMonitor × MCPResponse) (f : Nat) (r : Json)
    (h : out.2.result = some r) :
    HTTPServer.unwrapResult out f = (out.1, .ok r) := by
  unfold HTTPServer.unwrapResult
  rw [h]

lemma unwrapResult_none (out : SystemMonitor × MCPResponse) (f : Nat)
    (h : out.2.result = none) :
    HTTPServer.unwrapResult out f = (out.1, .status f) := by
  unfold HTTPServer.unwrapResult
  rw [h]

lemma toJson_get_id (r : MCPResponse) (s : String) (h : r.id = some s) :
    r.toJson.get? "id" = some (.str s) := by
  unfold MCPResponse.toJson Json.get?
  rw [h]
  simp [List.lookup]

lemma parseRequest_ok_id (raw : Json) (req : MCPRequest)
    (h : parseRequest raw = .ok req) :
    (match raw.get? "id" with
     | none => Except.ok none
     | some v => deserialize_id_opt v) = .ok req.id := by
  unfold parseRequest at h
  split at h
  all_goals try exact Except.noConfusion h
  split at h
  all_goals try exact Except.noConfusion h
  split at h
  all_goals try exact Except.noConfusion h
  split at h
  all_goals try exact Except.noConfusion h
  rename_i i hi
  injection h with h
  rw [← h]
  simpa [Json.get?] using hi

lemma handle_request_unknown (m : SystemMonitor) (now : Nat) (req : MCPRequest)
    (h : req.method ∉ recognizedMethods) :
    MCPServer.handle_request m now req
      = (m, MCPServer.create_error_response req.id ERROR_METHOD_NOT_FOUND
              "Method not found") := by
  simp only [recognizedMethods, List.mem_cons, List.not_mem_nil, or_false, not_or] at h
  obtain ⟨n1, n2, n3, n4, n5, n6, n7, n8, n9, n10, n11, n12, n13, n14⟩ := h
  unfold MCPServer.handle_request
  rw [if_neg n1, if_neg n2, if_neg n3, if_neg n4, if_neg n5, if_neg n6, if_neg n7,
      if_neg n8, if_neg n9, if_neg n10, if_neg n11, if_neg n12, if_neg n13, if_neg n14]

lemma frameMessage_ne_empty (body : String) : StdioServer.frameMessage body ≠ "" := by
  intro h
  have hl : (StdioServer.frameMessage body).length = 0 := by rw [h]; rfl
  unfold StdioServer.frameMessage at hl
  rw [String.length_append, String.length_append, String.length_append] at hl
  have h16 : ("Content-Length: ").length = 16 := rfl
  have h4 : ("\r\n\r\n").length = 4 := rfl
  omega

lemma get_system_metrics_state (m : SystemMonitor) (now : Nat) :
    (m.get_system_metrics now).1 = m.refresh now := by
  unfold SystemMonitor.get_system_metrics
  unfold SystemMonitor.get_system_info SystemMonitor.get_cpu_info
    SystemMonitor.get_memory_info SystemMonitor.get_disk_info
    SystemMonitor.get_network_info SystemMonitor.get_processes
  cases h1 : m.linux_info.get_system_info <;>
    cases h2 : m.linux_info.get_cpu_info <;>
    cases h3 : m.linux_info.get_memory_info <;>
    cases h4 : m.linux_info.get_disk_info <;>
    cases h5 : m.linux_info.get_network_info <;>
    cases h6 : m.linux_info.get_processes <;>
    simp [h1, h2, h3, h4, h5, h6, SystemMonitor.refresh]

/-! The claim theorems. -/

/-- C3: for every router response (over any monitor state, clock, and
request), exactly one of the `result` and `error` fields is present:
either `result` is absent and `error` present, or `result` present and
`error` absent; no handler path produces both or neither. -/
theorem c3_router_result_error_exclusive (m : SystemMonitor) (now : Nat)
    (req : MCPRequest) :
    ((MCPServer.handle_request m now req).2.result = none ∧
      (MCPServer.handle_request m now req).2.error ≠ none) ∨
    ((MCPServer.handle_request m now req).2.result ≠ none ∧
      (MCPServer.handle_request m now req).2.error = none) :=
  (goodResp_handle_request m now req).2

/-- C9: `start_monitoring` returns `true` exactly when the flag was
`false` and leaves the flag `true`; `stop_monitoring` returns `true`
exactly when the flag was `true` and leaves it `false`; a redundant call
is a no-op returning `false`; and no other monitor operation (the seven
collectors, `get_system_metrics`, or `refresh`) changes the flag. -/
theorem c9_monitoring_flag_latch (m : SystemMonitor) (now : Nat) (pid : Nat) :
    m.start_monitoring = ({ m with monitoring_active := true }, !m.monitoring_active) ∧
    m.stop_monitoring = ({ m with monitoring_active := false }, m.monitoring_active) ∧
    m.start_monitoring.1.start_monitoring = (m.start_monitoring.1, false) ∧
    m.stop_monitoring.1.stop_monitoring = (m.stop_monitoring.1, false) ∧
    (m.get_system_info now).1.monitoring_active = m.monitoring_active ∧
    (m.get_cpu_info now).1.monitoring_active = m.monitoring_active ∧
    (m.get_memory_info now).1.monitoring_active = m.monitoring_active ∧
    (m.get_disk_info now).1.monitoring_active = m.monitoring_active ∧
    (m.get_network_info now).1.monitoring_active = m.monitoring_active ∧
    (m.get_processes now).1.monitoring_active = m.monitoring_active ∧
    (m.get_process_by_pid now pid).1.monitoring_active = m.monitoring_active ∧
    (m.get_system_metrics now).1.monitoring_active = m.monitoring_active ∧
    (m.refresh now).monitoring_active = m.monitoring_active := by
  have hms := get_system_metrics_state m now
  obtain ⟨act, lu, li⟩ := m
  cases act <;>
    simp_all [SystemMonitor.start_monitoring, SystemMonitor.stop_monitoring,
          SystemMonitor.get_system_info, SystemMonitor.get_cpu_info,
          SystemMonitor.get_memory_info, SystemMonitor.get_disk_info,
          SystemMonitor.get_network_info, SystemMonitor.get_processes,
          SystemMonitor.get_process_by_pid, SystemMonitor.refresh]

/-- C10: `get_system_metrics` is all-or-nothing: it succeeds exactly when
all six collectors succeed, and on success the returned aggregate carries
the value of every one of the six collectors together with the collection
timestamp. -/
theorem c10_system_metrics_all_or_nothing (m : SystemMonitor) (now : Nat) :
    (∀ (m' : SystemMonitor) (metrics : SystemMetrics),
      m.get_system_metrics now = (m', .ok metrics) →
      metrics.timestamp = now ∧
      m.linux_info.get_system_info = .ok metrics.system_info ∧
      m.linux_info.get_cpu_info = .ok metrics.cpu_info ∧
      m.linux_info.get_memory_info = .ok metrics.memory_info ∧
      m.linux_info.get_disk_info = .ok metrics.disks ∧
      m.linux_info.get_network_info = .ok metrics.networks ∧
      m.linux_info.get_processes = .ok metrics.processes) ∧
    ((∃ m' metrics, m.get_system_metrics now = (m', Except.ok metrics)) ↔
      ((∃ v, m.linux_info.get_system_info = .ok v) ∧
       (∃ v, m.linux_info.get_cpu_info = .ok v) ∧
       (∃ v, m.linux_info.get_memory_info = .ok v) ∧
       (∃ v, m.linux_info.get_disk_info = .ok v) ∧
       (∃ v, m.linux_info.get_network_info = .ok v) ∧
       (∃ v, m.linux_info.get_processes = .ok v))) := by
  unfold SystemMonitor.get_system_metrics
  unfold SystemMonitor.get_system_info SystemMonitor.get_cpu_info
    SystemMonitor.get_memory_info SystemMonitor.get_disk_info
    SystemMonitor.get_network_info SystemMonitor.get_processes
  cases h1 : m.linux_info.get_system_info <;>
    cases h2 : m.linux_info.get_cpu_info <;>
    cases h3 : m.linux_info.get_memory_info <;>
    cases h4 : m.linux_info.get_disk_info <;>
    cases h5 : m.linux_info.get_network_info <;>
    cases h6 : m.linux_info.get_processes <;>
    simp_all [SystemMonitor.refresh]

/-- Witness for C10 at a concrete monitor whose six collectors all
succeed: the aggregate carries each collector's value. -/
theorem c10_witness :
    (7 : Nat) = 7 ∧
    fullMonitor.linux_info.get_system_info = .ok (Json.str "si") ∧
    fullMonitor.linux_info.get_cpu_info = .ok (Json.str "cpu") ∧
    fullMonitor.linux_info.get_memory_info = .ok (Json.str "mem") ∧
    fullMonitor.linux_info.get_disk_info = .ok (Json.str "dsk") ∧
    fullMonitor.linux_info.get_network_info = .ok (Json.str "net") ∧
    fullMonitor.linux_info.get_processes = .ok (Json.str "prc") :=
  (c10_system_metrics_all_or_nothing fullMonitor 7).1
    ({ fullMonitor with last_update := 7 })
    ⟨7, .str "si", .str "cpu", .str "mem", .str "dsk", .str "net", .str "prc"⟩
    rfl

/-- C5 (amended): a missing `pid` parameter, or one that `as_u64` rejects
(non-number, negative, or at least `2 ^ 64`), yields the invalid-params
code `-32602`; a `u64`-convertible `pid` is truncated to `pid % 2 ^ 32`
(rather than rejected when it exceeds `u32`) before the lookup, where a
successful lookup with no matching process yields the process-not-found
code `-32001`, distinct from the internal-error code `-32603` used for
collector failures. -/
theorem c5_get_process_by_pid_errors (m : SystemMonitor) (now : Nat)
    (id : Option String) (params : Json) :
    (params.get? "pid" = none →
      (MCPServer.handle_get_process_by_pid m now id params).2
        = MCPServer.create_error_response id ERROR_INVALID_PARAMS
            "Missing PID parameter") ∧
    (∀ v, params.get? "pid" = some v → v.as_u64 = none →
      (MCPServer.handle_get_process_by_pid m now id params).2
        = MCPServer.create_error_response id ERROR_INVALID_PARAMS
            "Invalid PID parameter") ∧
    (∀ v n, params.get? "pid" = some v → v.as_u64 = some n →
      m.linux_info.get_process_by_pid (n % 2 ^ 32) = .ok none →
      (MCPServer.handle_get_process_by_pid m now id params).2
        = MCPServer.create_error_response id ERROR_PROCESS_NOT_FOUND
            ("Process with PID " ++ toString (n % 2 ^ 32) ++ " not found")) ∧
    (∀ v n e, params.get? "pid" = some v → v.as_u64 = some n →
      m.linux_info.get_process_by_pid (n % 2 ^ 32) = .error e →
      (MCPServer.handle_get_process_by_pid m now id params).2
        = MCPServer.create_error_response id ERROR_INTERNAL_ERROR
            ("Failed to get process: " ++ e)) ∧
    ERROR_PROCESS_NOT_FOUND ≠ ERROR_INTERNAL_ERROR ∧
    ERROR_PROCESS_NOT_FOUND ≠ ERROR_INVALID_PARAMS := by
  unfold MCPServer.handle_get_process_by_pid SystemMonitor.get_process_by_pid
  refine ⟨?_, ?_, ?_, ?_, ?_, ?_⟩
  · intro hp; simp [hp]
  · intro v hp hv; simp [hp, hv]
  · intro v n hp hv hr
    simp [hp, hv,
      show m.linux_info.get_process_by_pid (n % 4294967296) = Except.ok none from hr]
  · intro v n e hp hv hr
    simp [hp, hv,
      show m.linux_info.get_process_by_pid (n % 4294967296) = Except.error e from hr]
  · simp [ERROR_PROCESS_NOT_FOUND, ERROR_INTERNAL_ERROR]
  · simp [ERROR_PROCESS_NOT_FOUND, ERROR_INVALID_PARAMS]

/-- Witness for C5: a request with no `pid` parameter is answered with
the invalid-params error. -/
theorem c5_witness :
    (MCPServer.handle_get_process_by_pid testMonitor 0 (some "w5") (Json.obj [])).2
      = MCPServer.create_error_response (some "w5") ERROR_INVALID_PARAMS
          "Missing PID parameter" :=
  (c5_get_process_by_pid_errors testMonitor 0 (some "w5") (Json.obj [])).1 rfl

/-- Counterexample to C5 as stated: the numeric pid `4294967296 = 2 ^ 32`
is not representable as an unsigned 32-bit integer, yet the router does
not answer with the invalid-params code `-32602`: it truncates the pid to
`0` and reports that process `0` was not found (code `-32001`). -/
theorem c5_counterexample :
    (MCPServer.handle_get_process_by_pid testMonitor 0 (some "c5")
        (Json.obj [("pid", .int 4294967296)])).2
      = MCPServer.create_error_response (some "c5") ERROR_PROCESS_NOT_FOUND
          "Process with PID 0 not found" ∧
    ERROR_PROCESS_NOT_FOUND ≠ ERROR_INVALID_PARAMS ∧
    ¬ ((4294967296 : Int) < 2 ^ 32) :=
  ⟨rfl, by decide, by decide⟩

set_option maxRecDepth 8192 in
/-- C4 (amended): for the HTTP by-PID sugar endpoint, a router success is
HTTP 200 with the result value as the body, and every router failure —
regardless of the error code — is HTTP 404; the other sugar endpoints
(here `GET /api/system/info`) map failures to HTTP 500 instead. -/
theorem c4_http_by_pid_status (m : SystemMonitor) (now : Nat) (reqId : String)
    (pid : Nat) :
    (∀ r, (MCPServer.handle_request m now
        ⟨"2.0", some reqId, METHOD_GET_PROCESS_BY_PID,
         .obj [("pid", .int pid)]⟩).2.result = some r →
      (HTTPServer.get_process_by_pid m now reqId pid).2 = .ok r) ∧
    ((MCPServer.handle_request m now
        ⟨"2.0", some reqId, METHOD_GET_PROCESS_BY_PID,
         .obj [("pid", .int pid)]⟩).2.result = none →
      (HTTPServer.get_process_by_pid m now reqId pid).2 = .status 404) ∧
    ((MCPServer.handle_request m now
        ⟨"2.0", some reqId, METHOD_GET_SYSTEM_INFO, .obj []⟩).2.result = none →
      (HTTPServer.get_system_info m now reqId).2 = .status 500) := by
  have e1 : HTTPServer.get_process_by_pid m now reqId pid
      = HTTPServer.unwrapResult
          (MCPServer.handle_request m now
            ⟨"2.0", some reqId, METHOD_GET_PROCESS_BY_PID,
             .obj [("pid", .int pid)]⟩) 404 := rfl
  have e2 : HTTPServer.get_system_info m now reqId
      = HTTPServer.unwrapResult
          (MCPServer.handle_request m now
            ⟨"2.0", some reqId, METHOD_GET_SYSTEM_INFO, .obj []⟩) 500 := rfl
  refine ⟨?_, ?_, ?_⟩
  · intro r hr
    rw [e1, unwrapResult_some _ _ _ hr]
  · intro hr
    rw [e1, unwrapResult_none _ _ hr]
  · intro hr
    rw [e2, unwrapResult_none _ _ hr]

/-- Witness for C4: over a monitor whose by-pid collector fails, the
by-PID endpoint returns HTTP 404. -/
theorem c4_witness :
    (HTTPServer.get_process_by_pid failingPidMonitor 0 "w4" 7).2
      = HttpReply.status 404 :=
  (c4_http_by_pid_status failingPidMonitor 0 "w4" 7).2.1 rfl

/-- Counterexample to C4 as stated: when the by-pid collector fails with
an infrastructure error, the router error carries the internal-error code
`-32603` — not process-not-found — yet the endpoint returns HTTP 404
rather than the claimed 500. -/
theorem c4_counterexample :
    (HTTPServer.get_process_by_pid failingPidMonitor 0 "c4" 7).2
      = HttpReply.status 404 ∧
    (MCPServer.handle_request failingPidMonitor 0
        ⟨"2.0", some "c4", METHOD_GET_PROCESS_BY_PID,
         .obj [("pid", .int 7)]⟩).2.error
      = some ⟨ERROR_INTERNAL_ERROR, "Failed to get process: boom", none⟩ ∧
    ERROR_INTERNAL_ERROR ≠ ERROR_PROCESS_NOT_FOUND ∧
    (404 : Nat) ≠ 500 :=
  ⟨rfl, rfl, by decide, by decide⟩

/-- C6: for a `tools/call` request whose `name` parameter is a recognized
tool, a successful underlying handler outcome is wrapped as
`\x7bcontent: [\x7btype: "text", text: t\x7d]\x7d` with `t` the
pretty-printed JSON of the underlying result, while an underlying error
response is returned unchanged. -/
theorem c6_tools_call_envelope (m : SystemMonitor) (now : Nat) (id : Option String)
    (params : Json) (name : String) (m' : SystemMonitor) (tr : MCPResponse)
    (hname : (params.get? "name").bind Json.asStr = some name)
    (hrun : MCPServer.runTool m now id name = some (m', tr)) :
    (∀ r, tr.result = some r →
      MCPServer.handle_tools_call m now id params
        = (m', MCPServer.create_success_response id (MCPServer.contentEnvelope r))) ∧
    (tr.result = none → MCPServer.handle_tools_call m now id params = (m', tr)) := by
  have hb : ((params.get? "name").bind Json.asStr).bind (MCPServer.runTool m now id)
      = some (m', tr) := by
    rw [hname]
    exact hrun
  constructor
  · intro r hr
    unfold MCPServer.handle_tools_call
    simp only [hb, hr]
  · intro hr
    unfold MCPServer.handle_tools_call
    simp only [hb, hr]

/-- Witness for C6: a `tools/call` of `get_cpu_info` over a monitor whose
CPU collector returns `null` yields the content-block envelope around the
pretty-printed result. -/
theorem c6_witness :
    MCPServer.handle_tools_call testMonitor 0 (some "w6")
        (Json.obj [("name", .str "get_cpu_info")])
      = (testMonitor, MCPServer.create_success_response (some "w6")
          (MCPServer.contentEnvelope Json.null)) :=
  (c6_tools_call_envelope testMonitor 0 (some "w6")
      (Json.obj [("name", .str "get_cpu_info")]) "get_cpu_info"
      testMonitor (MCPServer.create_success_response (some "w6") Json.null)
      rfl rfl).1 Json.null rfl

/-- C8: the set of tool names advertised by `tools/list` coincides with
the set of names `tools/call` dispatches: a name has a dispatch arm
exactly when it appears in the advertised catalogue. -/
theorem c8_tools_list_matches_dispatch (m : SystemMonitor) (now : Nat)
    (id : Option String) (s : String) :
    (MCPServer.runTool m now id s).isSome = true ↔
      s ∈ toolNamesOfCatalogue
            ((MCPServer.handle_tools_list m id).2.result.getD .null) := by
  have hcat : toolNamesOfCatalogue
        ((MCPServer.handle_tools_list m id).2.result.getD .null)
      = ["get_system_info", "get_cpu_info", "get_memory_info", "get_disk_info",
         "get_network_info", "get_processes", "get_system_metrics"] := rfl
  rw [hcat]
  unfold MCPServer.runTool
  by_cases e1 : s = "get_system_info"
  · simp [e1]
  by_cases e2 : s = "get_cpu_info"
  · simp [e1, e2]
  by_cases e3 : s = "get_memory_info"
  · simp [e1, e2, e3]
  by_cases e4 : s = "get_disk_info"
  · simp [e1, e2, e3, e4]
  by_cases e5 : s = "get_network_info"
  · simp [e1, e2, e3, e4, e5]
  by_cases e6 : s = "get_processes"
  · simp [e1, e2, e3, e4, e5, e6]
  by_cases e7 : s = "get_system_metrics"
  · simp [e1, e2, e3, e4, e5, e6, e7]
  simp [e1, e2, e3, e4, e5, e6, e7]

/-- C2 (amended): a string request id is normalized to itself and a
numeric id to its decimal string; either way the emitted (serialized)
response carries an `id` field holding that normalized value as a JSON
string — so string ids round-trip exactly, while numeric ids come back
quoted (as strings) rather than as numbers. -/
theorem c2_id_echo_normalized (m : SystemMonitor) (now : Nat) (raw : Json)
    (req : MCPRequest) (h : parseRequest raw = .ok req) :
    (∀ t, raw.get? "id" = some (.str t) → req.id = some t) ∧
    (∀ n : Int, raw.get? "id" = some (.int n) → req.id = some (toString n)) ∧
    (∀ s, req.id = some s →
      (MCPServer.handle_request m now req).2.toJson.get? "id"
        = some (Json.str s)) := by
  have hid := parseRequest_ok_id raw req h
  refine ⟨?_, ?_, ?_⟩
  · intro t ht
    rw [ht] at hid
    simp [deserialize_id_opt] at hid
    exact hid.symm
  · intro n hn
    rw [hn] at hid
    simp [deserialize_id_opt] at hid
    exact hid.symm
  · intro s hs
    have hrid : (MCPServer.handle_request m now req).2.id = some s := by
      rw [handle_request_id]
      exact hs
    exact toJson_get_id _ s hrid

/-- Witness for C2: a string id `"abc"` is echoed in the serialized
response as the same JSON string. -/
theorem c2_witness :
    (MCPServer.handle_request testMonitor 0
        ⟨"2.0", some "abc", "tools/list", Json.null⟩).2.toJson.get? "id"
      = some (Json.str "abc") :=
  (c2_id_echo_normalized testMonitor 0
      (Json.obj [("jsonrpc", .str "2.0"), ("id", .str "abc"),
                 ("method", .str "tools/list")])
      ⟨"2.0", some "abc", "tools/list", Json.null⟩ rfl).2.2 "abc" rfl

/-- Counterexample to C2 as stated: a request arriving with the numeric
id `42` is answered with the JSON string `"42"` in the serialized
response — the numeric kind is not preserved (the response id serializer
emits a plain quoted string). -/
theorem c2_counterexample :
    (parseRequest (Json.obj [("jsonrpc", .str "2.0"), ("id", .int 42),
        ("method", .str "tools/list")])).map
      (fun req => (MCPServer.handle_request testMonitor 0 req).2.toJson.get? "id")
      = .ok (some (Json.str "42")) ∧
    Json.str "42" ≠ Json.int 42 :=
  ⟨rfl, fun hcontra => Json.noConfusion hcontra⟩

/-- C1 (amended): for a successfully parsed notification (absent id), the
HTTP raw POST endpoint suppresses the JSON-RPC response and answers with
an empty JSON object, but the stdio adapter still writes a complete
framed response message (nonempty output) for it. -/
theorem c1_notification_transports (m : SystemMonitor) (now : Nat) (raw : Json)
    (req : MCPRequest) (hp : parseRequest raw = .ok req) (hid : req.id = none) :
    (HTTPServer.handle_mcp_request m now raw).2 = .ok (Json.obj []) ∧
    (StdioServer.handleFrame m now raw).2
      = StdioServer.frameMessage
          (MCPServer.handle_request m now req).2.toJson.render ∧
    (StdioServer.handleFrame m now raw).2 ≠ "" := by
  refine ⟨?_, ?_, ?_⟩
  · unfold HTTPServer.handle_mcp_request
    simp [hp, hid]
  · unfold StdioServer.handleFrame
    simp only [hp]
  · unfold StdioServer.handleFrame
    simp only [hp]
    exact frameMessage_ne_empty _

/-- Witness for C1: a concrete `initialized` notification — the HTTP raw
endpoint answers `\x7b\x7d` while the stdio adapter still emits bytes. -/
theorem c1_witness :
    (HTTPServer.handle_mcp_request testMonitor 0
        (Json.obj [("jsonrpc", .str "2.0"), ("method", .str "initialized")])).2
      = .ok (Json.obj []) ∧
    (StdioServer.handleFrame testMonitor 0
        (Json.obj [("jsonrpc", .str "2.0"), ("method", .str "initialized")])).2
      ≠ "" := by
  have h := c1_notification_transports testMonitor 0
      (Json.obj [("jsonrpc", .str "2.0"), ("method", .str "initialized")])
      ⟨"2.0", none, "initialized", Json.null⟩ rfl rfl
  exact ⟨h.1, h.2.2⟩

/-- Counterexample to C1 as stated: the stdio adapter emits a (nonempty)
framed message for a concrete notification, so it is not true that no
bytes are written for requests with an absent identifier. -/
theorem c1_counterexample :
    (StdioServer.handleFrame testMonitor 0
        (Json.obj [("jsonrpc", .str "2.0"), ("method", .str "initialized")])).2
      ≠ "" := by
  intro hcontra
  exact frameMessage_ne_empty _ hcontra

/-- C7: a request whose method matches no dispatch arm is answered with an
error response of code `-32601` and message "Method not found", the
monitor state is untouched, and the stdio loop goes on to process the
following frames exactly as it would have without the unknown-method
frame (same outputs, same final state). -/
theorem c7_unknown_method (m : SystemMonitor) (now : Nat) (raw : Json)
    (req : MCPRequest) (rest : List Json)
    (hp : parseRequest raw = .ok req)
    (hm : req.method ∉ recognizedMethods) :
    MCPServer.handle_request m now req
      = (m, MCPServer.create_error_response req.id ERROR_METHOD_NOT_FOUND
              "Method not found") ∧
    ERROR_METHOD_NOT_FOUND = -32601 ∧
    (MCPServer.create_error_response req.id ERROR_METHOD_NOT_FOUND
        "Method not found").error
      = some ⟨-32601, "Method not found", none⟩ ∧
    StdioServer.run m now (raw :: rest)
      = ((StdioServer.run m now rest).1,
         StdioServer.frameMessage
             (MCPServer.create_error_response req.id ERROR_METHOD_NOT_FOUND
                "Method not found").toJson.render
           :: (StdioServer.run m now rest).2) := by
  have hh := handle_request_unknown m now req hm
  have hf : StdioServer.handleFrame m now raw
      = (m, StdioServer.frameMessage
              (MCPServer.create_error_response req.id ERROR_METHOD_NOT_FOUND
                "Method not found").toJson.render) := by
    unfold StdioServer.handleFrame
    simp only [hp, hh]
  refine ⟨hh, rfl, rfl, ?_⟩
  rw [show StdioServer.run m now (raw :: rest)
      = ((StdioServer.run (StdioServer.handleFrame m now raw).1 now rest).1,
         (StdioServer.handleFrame m now raw).2
           :: (StdioServer.run (StdioServer.handleFrame m now raw).1 now rest).2)
      from rfl]
  rw [hf]

/-- Witness for C7: the method `"doesNotExist"` is answered with the
method-not-found error and leaves the monitor untouched. -/
theorem c7_witness :
    MCPServer.handle_request testMonitor 0
        ⟨"2.0", some "w7", "doesNotExist", Json.null⟩
      = (testMonitor, MCPServer.create_error_response (some "w7")
          ERROR_METHOD_NOT_FOUND "Method not found") :=
  (c7_unknown_method testMonitor 0
      (Json.obj [("jsonrpc", .str "2.0"), ("id", .str "w7"),
                 ("method", .str "doesNotExist")])
      ⟨"2.0", some "w7", "doesNotExist", Json.null⟩ [] rfl (by decide)).1

end MCPSystemMonitor
